import Mathlib

/-!
# Verification of the nexashell session multiplexer (src-tauri/src/ssh.rs, terminal.rs)

This file gives a shallow embedding of the session multiplexer of the
nexashell backend and proves (or refutes) the specification claims about it.

The embedding follows the Rust source:

* `IoState` / `ioStep` model one iteration of the I/O pump loop spawned by
  `SshManager::spawn_io_task` (ssh.rs lines 419-531).  Real-time quantities
  (elapsed wall-clock readings) and the result of the non-blocking channel
  read are supplied as per-iteration oracle inputs (`IoInput`), so every
  theorem quantifies over all possible timings and read outcomes.
* `SessState` / `sessStep` extend the pump with the other per-session
  actors that interleave with it: draining via `get_session_output`,
  reading the replay buffer via `get_buffered_ssh_output`, one tick of the
  monitoring task (`spawn_monitoring_task`), one progress emission of an
  SFTP upload worker, and the external stop signal set by `disconnect_ssh`.
* `SshManagerState` and friends model the registry-level operations
  (`connect_ssh`, `disconnect_ssh`, `send_ssh_input`, lookups), with the
  `HashMap`s embedded as association lists.
* `Transport`, `uploadChunkLocked`, `probeLocked` model the blocking-mode
  discipline of the SFTP uploader and `probe_remote_path`.
* `uploadWorkerEvents` models the event stream of `upload_file_sftp`.
-/

namespace NexaShell

/-- A chunk of output data from an SSH session (struct `OutputChunk` in
ssh.rs): sequence number, payload, and timestamp in ms since epoch. -/
structure OutputChunk where
  seq : Nat
  output : String
  ts : Nat
deriving Repr, DecidableEq

/-- Constant `INITIAL_BATCH_SIZE_THRESHOLD` (ssh.rs line 56). -/
def INITIAL_BATCH_SIZE_THRESHOLD : Nat := 200

/-- Constant `INITIAL_BATCH_TIME_MS` (ssh.rs line 57). -/
def INITIAL_BATCH_TIME_MS : Nat := 100

/-- Constant `INITIAL_BUFFERING_TIMEOUT_MS` (ssh.rs line 61). -/
def INITIAL_BUFFERING_TIMEOUT_MS : Nat := 2000

/-- Constant `NORMAL_BATCH_SIZE_THRESHOLD` (ssh.rs line 64). -/
def NORMAL_BATCH_SIZE_THRESHOLD : Nat := 1024

/-- Constant `NORMAL_BATCH_TIME_MS` (ssh.rs line 65). -/
def NORMAL_BATCH_TIME_MS : Nat := 20

/-- State of one I/O pump task (the local variables of the loop in
`spawn_io_task` together with the shared cells it writes).

`emitted` is the cumulative list of chunks delivered on both sinks
(the `ssh-output-<id>` event and the `output_sender` queue) in emission
order; `queue` is the current content of the unbounded `output_sender`
channel (what `get_ssh_output` would drain); `replay` is the
`initial_outputs` cache; `written` is the cumulative list of input items
successfully written to the shell channel. -/
structure IoState where
  stopped : Bool
  stopFlag : Bool
  pending : String
  nextSeq : Nat
  seenFirst : Bool
  inInitial : Bool
  emitted : List OutputChunk
  replay : List OutputChunk
  queue : List OutputChunk
  written : List String
deriving Repr, DecidableEq

/-- Pump state right after `spawn_io_task` starts: `next_seq` is 1
(`AtomicU64::new(1)`), nothing pending, inside the initial buffering
window, no emission seen yet. -/
def initIoState : IoState :=
  { stopped := false, stopFlag := false, pending := "", nextSeq := 1
  , seenFirst := false, inInitial := true
  , emitted := [], replay := [], queue := [], written := [] }

/-- Outcome of the non-blocking `channel.read` at the top of one pump
iteration (ssh.rs lines 446-455): `Ok(0)` is `closed`, `Ok(n)` delivers
the read bytes (lossily decoded) as `data`, a `WouldBlock` error is
`wouldBlock`, any other error is `readErr`. -/
inductive ReadRes where
  | closed
  | data (d : String)
  | wouldBlock
  | readErr
deriving Repr, DecidableEq

/-- Oracle inputs for one pump iteration: the read outcome, whether
`initial_buffering_start.elapsed()` exceeds the 2 s window, the current
value of `last_emit.elapsed()` in ms, the wall-clock stamp used for a
chunk emitted this iteration, and the queued input items drained this
iteration paired with the success of their `write_all`+`flush`. -/
structure IoInput where
  readResult : ReadRes
  windowExpired : Bool
  emitElapsed : Nat
  now : Nat
  inputs : List (String × Bool)
deriving Repr, DecidableEq

/-- Emit one chunk (ssh.rs lines 479-486 and 503-519): assign
`seq = next_seq.fetch_add(1)`, stamp it, push it on the event sink and the
output queue, optionally cache it in `initial_outputs`, clear the pending
buffer and record that a first emission happened. -/
def emitChunk (t : IoState) (now : Nat) (toReplay : Bool) : IoState :=
  let c : OutputChunk := ⟨t.nextSeq, t.pending, now⟩
  { t with nextSeq := t.nextSeq + 1
         , emitted := t.emitted ++ [c]
         , queue := t.queue ++ [c]
         , replay := if toReplay then t.replay ++ [c] else t.replay
         , pending := ""
         , seenFirst := true }

/-- Read phase of one iteration (ssh.rs lines 457-469): append any read
bytes to the pending buffer; `WouldBlock` just yields. -/
def readPhase (t : IoState) (i : IoInput) : IoState :=
  match i.readResult with
  | ReadRes.data d => { t with pending := t.pending ++ d }
  | _ => t

/-- Window-expiry phase (ssh.rs lines 471-489): when the 2 s initial
buffering window has elapsed, leave the initial regime and flush any
pending bytes as a chunk (this flush chunk is not cached in
`initial_outputs`). -/
def windowPhase (t : IoState) (i : IoInput) : IoState :=
  if t.inInitial && i.windowExpired then
    if t.pending.isEmpty then { t with inInitial := false }
    else emitChunk { t with inInitial := false } i.now false
  else t

/-- Threshold selection of the pump (ssh.rs lines 491-497): the initial
thresholds apply only while still inside the window AND no chunk has been
emitted yet; otherwise the normal thresholds apply. -/
def codeThresholds (inInit seenFirst : Bool) : Nat × Nat :=
  if inInit && !seenFirst then (INITIAL_BATCH_SIZE_THRESHOLD, INITIAL_BATCH_TIME_MS)
  else (NORMAL_BATCH_SIZE_THRESHOLD, NORMAL_BATCH_TIME_MS)

/-- Batch-emit phase (ssh.rs lines 499-521): emit when the pending buffer
is non-empty and exceeds the size threshold or the time since the last
emission exceeds the time threshold; the chunk is cached in
`initial_outputs` iff still inside the window. -/
def batchPhase (t : IoState) (i : IoInput) : IoState :=
  if !t.pending.isEmpty
      && (decide (t.pending.length > (codeThresholds t.inInitial t.seenFirst).1)
          || decide (i.emitElapsed > (codeThresholds t.inInitial t.seenFirst).2)) then
    emitChunk t i.now t.inInitial
  else t

/-- Input-drain phase (ssh.rs lines 523-528): write each queued input item
to the channel and flush; the result of the write is discarded
(`let _ = ...`), so only the successfully written items leave any trace
(on the remote side), and nothing else in the session state changes. -/
def inputPhase (t : IoState) (i : IoInput) : IoState :=
  { t with written := t.written ++ (i.inputs.filter (fun p => p.2)).map (fun p => p.1) }

/-- One iteration of the pump loop (ssh.rs lines 439-529): stop when the
stop flag is observed; a closed channel or fatal read error sets the stop
flag and terminates the task; otherwise run the read, window, batch and
input phases. -/
def ioStep (t : IoState) (i : IoInput) : IoState :=
  if t.stopped then t
  else if t.stopFlag then { t with stopped := true }
  else
    match i.readResult with
    | ReadRes.closed => { t with stopFlag := true, stopped := true }
    | ReadRes.readErr => { t with stopFlag := true, stopped := true }
    | _ => inputPhase (batchPhase (windowPhase (readPhase t i) i) i) i

/-- Session-level events observable by the UI process, in global emission
order: an output chunk (with its sequence number), a `ssh-status-<id>`
emission, an `upload-progress` emission. -/
inductive Ev where
  | chunk (seq : Nat)
  | status
  | uploadProgress
deriving Repr, DecidableEq

/-- One atomic action of the actors sharing a live session: a pump
iteration, a `get_ssh_output` drain, a `get_buffered_ssh_output` read, one
monitoring-task tick (with the success of its status fetch), one
`upload-progress` emission of a running SFTP worker, or the stop signal
from `disconnect_ssh`. -/
inductive SessOp where
  | io (i : IoInput)
  | drain
  | getBuffered
  | monitor (fetchOk : Bool)
  | uploadTick
  | stop
deriving Repr, DecidableEq

/-- A live session: the pump state, the cumulative list of chunks returned
by past `get_ssh_output` calls (ghost), and the global ordered event log. -/
structure SessState where
  io : IoState
  drained : List OutputChunk
  events : List Ev
deriving Repr, DecidableEq

/-- Session state right after `connect_ssh` registers the session. -/
def initSessState : SessState := { io := initIoState, drained := [], events := [] }

/-- Interleaving semantics of one session: the pump iteration appends its
newly emitted chunks to the event log; `drain` empties the output queue
into `drained` (`get_session_output` loops `try_recv`); `getBuffered`
clones the replay cache and changes nothing; a monitoring tick emits a
status event when the stop flag is unset and the fetch succeeded
(ssh.rs lines 545-596); an upload worker emission appends an
`upload-progress` event; `stop` sets the stop flag (`disconnect_ssh`). -/
def sessStep (s : SessState) (op : SessOp) : SessState :=
  match op with
  | SessOp.io i =>
      let t := ioStep s.io i
      { s with io := t
             , events := s.events
                 ++ (t.emitted.drop s.io.emitted.length).map (fun c => Ev.chunk c.seq) }
  | SessOp.drain =>
      { s with io := { s.io with queue := [] }, drained := s.drained ++ s.io.queue }
  | SessOp.getBuffered => s
  | SessOp.monitor fetchOk =>
      if !s.io.stopFlag && fetchOk then { s with events := s.events ++ [Ev.status] } else s
  | SessOp.uploadTick => { s with events := s.events ++ [Ev.uploadProgress] }
  | SessOp.stop => { s with io := { s.io with stopFlag := true } }

/-- Run a session from an arbitrary state. -/
def runFrom (s : SessState) (ops : List SessOp) : SessState := ops.foldl sessStep s

/-- Run a session from its initial state. -/
def runSess (ops : List SessOp) : SessState := runFrom initSessState ops

/-- Reading `get_buffered_ssh_output` for a live session returns a clone of the
`initial_outputs` cache (ssh.rs lines 768-783). -/
def getBufferedOutput (s : SessState) : List OutputChunk := s.io.replay

/-- Calling `get_ssh_output` for a live session drains and returns the queued
chunks (ssh.rs lines 730-746). -/
def drainOutput (s : SessState) : List OutputChunk × SessState :=
  (s.io.queue, sessStep s SessOp.drain)

/-! ## Invariants of the pump and session machine -/

/-- Invariant of the pump state: the next sequence number is one past the
number of emitted chunks, the emitted sequence numbers are exactly
`1, 2, …, N`, the replay cache is a prefix of the emission stream, and
while the initial window is open the replay cache holds the whole
emission stream so far. -/
def IoInv (t : IoState) : Prop :=
  t.nextSeq = t.emitted.length + 1
  ∧ t.emitted.map OutputChunk.seq = List.range' 1 t.emitted.length
  ∧ t.replay <+: t.emitted
  ∧ (t.inInitial = true → t.replay = t.emitted)

/-- Invariant of the session state: the pump invariant, plus the chunks
drained so far followed by the current queue content are exactly the
emission stream. -/
def SessInv (s : SessState) : Prop :=
  IoInv s.io ∧ s.drained ++ s.io.queue = s.io.emitted

/-! ## Claim-shaped predicates and concrete inputs -/

/-- Thresholds as the claim words them: one regime while the initial
buffering window is open, the other after it expires.  (Stated from the
claim, to be compared with `codeThresholds` from the source.) -/
def specRegimeThresholds (inInit : Bool) : Nat × Nat :=
  if inInit then (200, 100) else (1024, 20)

/-- Emission condition as the claim words it: the pump emits when pending
bytes exceed the size threshold or the time since last emission exceeds
the time threshold, with thresholds chosen by `specRegimeThresholds`
(i.e. only by whether the window is still open). -/
def specEmitCond (t : IoState) (i : IoInput) : Bool :=
  !t.pending.isEmpty
    && (decide (t.pending.length > (specRegimeThresholds t.inInitial).1)
        || decide (i.emitElapsed > (specRegimeThresholds t.inInitial).2))

/-- Claim C3 as stated: in every live pump iteration, a chunk is batched
out exactly when the claim's window-based regime says so. -/
def batchClaim : Prop :=
  ∀ (ops : List SessOp) (i : IoInput),
    (runSess ops).io.stopped = false → (runSess ops).io.stopFlag = false →
    i.readResult ≠ ReadRes.closed → i.readResult ≠ ReadRes.readErr →
    ((batchPhase (windowPhase (readPhase (runSess ops).io i) i) i).emitted.length
        = (windowPhase (readPhase (runSess ops).io i) i).emitted.length + 1
      ↔ specEmitCond (windowPhase (readPhase (runSess ops).io i) i) i = true)

/-- Thresholds as the amended claim words them: initial thresholds
(200 bytes / 100 ms) only before the window expires AND before the first
emission; normal thresholds (1024 bytes / 20 ms) after the first emission
or after the window expires. -/
def amendedRegimeThresholds (inInit seenFirst : Bool) : Nat × Nat :=
  if inInit && !seenFirst then (200, 100) else (1024, 20)

/-- Emission condition with the amended regime split, wording of the
amended claim: emit when pending bytes exceed the size threshold or the
time since last emission exceeds the time threshold, with thresholds
chosen by `amendedRegimeThresholds`. -/
def amendedEmitCond (t : IoState) (i : IoInput) : Bool :=
  !t.pending.isEmpty
    && (decide (t.pending.length > (amendedRegimeThresholds t.inInitial t.seenFirst).1)
        || decide (i.emitElapsed > (amendedRegimeThresholds t.inInitial t.seenFirst).2))

/-- A 201-byte read: crosses the 200-byte initial size threshold. -/
def cxRead1 : String := String.mk (List.replicate 201 'x')

/-- A 300-byte read: crosses 200 bytes but not 1024 bytes. -/
def cxRead2 : String := String.mk (List.replicate 300 'y')

/-- First pump iteration of the counterexample trace: 201 bytes arrive
inside the window before any emission, so the pump emits chunk 1. -/
def cxInput1 : IoInput :=
  { readResult := ReadRes.data cxRead1, windowExpired := false
  , emitElapsed := 0, now := 11, inputs := [] }

/-- Second pump iteration of the counterexample trace: 300 bytes arrive,
still inside the window, 5 ms after the last emission. -/
def cxInput2 : IoInput :=
  { readResult := ReadRes.data cxRead2, windowExpired := false
  , emitElapsed := 5, now := 12, inputs := [] }

/-- Holds (`true`) iff no `ssh-status` or `upload-progress` event occurs before
the first output chunk in the event log (vacuously `true` when the log
starts with a chunk or is empty). -/
def chunkFirstHolds : List Ev → Bool
  | [] => true
  | Ev.chunk _ :: _ => true
  | Ev.status :: _ => false
  | Ev.uploadProgress :: _ => false

/-- Claim C7 as stated: in every execution, the first output chunk
precedes any `ssh-status` or `upload-progress` event of the session. -/
def firstEmissionClaim : Prop :=
  ∀ ops : List SessOp, chunkFirstHolds (runSess ops).events = true

/-- Claim C8 as stated, its "records the failure" part: if the pump
recorded a failed input write anywhere in session state, the state after
an iteration whose queued input item fails to write would differ from the
state after the same iteration with no queued input at all. -/
def inputErrorClaim : Prop :=
  ∀ (t : IoState) (i : IoInput) (x : String),
    t.stopped = false → t.stopFlag = false →
    i.readResult ≠ ReadRes.closed → i.readResult ≠ ReadRes.readErr →
    ioStep t { i with inputs := [(x, false)] } ≠ ioStep t { i with inputs := [] }

/-- Pump iteration carrying one queued input item whose write fails. -/
def cxFailInput : IoInput :=
  { readResult := ReadRes.wouldBlock, windowExpired := false
  , emitElapsed := 0, now := 0, inputs := [("ls\n", false)] }

/-- The same pump iteration with no queued input at all. -/
def cxNoInput : IoInput :=
  { readResult := ReadRes.wouldBlock, windowExpired := false
  , emitElapsed := 0, now := 0, inputs := [] }

/-- A pump iteration that only observes the expiry of the 2 s window. -/
def cxWindowExpire : IoInput :=
  { readResult := ReadRes.wouldBlock, windowExpired := true
  , emitElapsed := 0, now := 99, inputs := [] }

/-! ## Registry-level model (SshManager / TerminalManager) -/

/-- The error enum `SshError` of ssh.rs. -/
inductive SshError where
  | connectionFailed (host : String) (port : Nat) (reason : String)
  | authenticationFailed (reason : String)
  | operationFailed (reason : String)
  | channelError (reason : String)
  | sessionNotFound (id : String)
  | lockPoisoned (reason : String)
  | taskError (reason : String)
deriving Repr, DecidableEq

/-- The error enum `TerminalError` of terminal.rs. -/
inductive TerminalError where
  | spawnFailed (reason : String)
  | sessionNotFound (id : String)
  | lockPoisoned (reason : String)
deriving Repr, DecidableEq

/-- The `SshSession` config stored in the `sessions` map. -/
structure SshSessionCfg where
  ip : String
  port : Nat
  username : String
deriving Repr, DecidableEq

/-- Registry view of one `SshChannelInfo` entry: the stop flag, whether
the input channel has been closed, the output queue content and the
replay cache content. -/
structure ChannelInfo where
  stopFlag : Bool
  inputClosed : Bool
  queue : List OutputChunk
  replay : List OutputChunk
deriving Repr, DecidableEq

/-- Lookup of a `HashMap` key, on the association-list embedding. -/
def mapLookup {β : Type} (m : List (String × β)) (k : String) : Option β :=
  List.lookup k m

/-- Insertion `HashMap::insert` (replaces any existing binding). -/
def mapInsert {β : Type} (m : List (String × β)) (k : String) (v : β) :
    List (String × β) :=
  (k, v) :: m.filter (fun p => !(p.1 == k))

/-- Removal `HashMap::remove` of the key. -/
def mapRemove {β : Type} (m : List (String × β)) (k : String) :
    List (String × β) :=
  m.filter (fun p => !(p.1 == k))

/-- The two maps owned by `SshManager` (ssh.rs lines 182-186). -/
structure SshManagerState where
  sessions : List (String × SshSessionCfg)
  channels : List (String × ChannelInfo)
deriving Repr, DecidableEq

/-- A fresh `SshManager` (both maps empty). -/
def emptySshManager : SshManagerState := { sessions := [], channels := [] }

/-- Model of `SshManager::has_session` (ssh.rs lines 824-831). -/
def has_session (m : SshManagerState) (id : String) : Bool :=
  (mapLookup m.sessions id).isSome

/-- Which step of connection establishment fails, if any, in
`SshManager::connect_ssh` (ssh.rs lines 229-293): address resolution
error, empty resolution result, TCP connect failure, `Session::new`
failure, handshake failure, password rejection, post-auth
`authenticated()` check failure, channel open failure, PTY request
failure, shell start failure — or full success. -/
inductive ConnStage where
  | resolveErr (msg : String)
  | resolveEmpty
  | tcpErr (msg : String)
  | sessErr (msg : String)
  | handshakeErr (msg : String)
  | authErr
  | notAuth
  | chanErr (msg : String)
  | ptyErr (msg : String)
  | shellErr (msg : String)
  | ok
deriving Repr, DecidableEq

/-- The blocking part of `connect_ssh` (the `spawn_blocking` closure,
ssh.rs lines 229-287): each failing step maps to its typed error exactly
as in the source. -/
def establishSsh (ip : String) (port : Nat) (stage : ConnStage) :
    Except SshError Unit :=
  let addr := ip ++ ":" ++ toString port
  match stage with
  | ConnStage.resolveErr msg =>
      Except.error (SshError.connectionFailed addr port
        ("Failed to resolve address: " ++ msg))
  | ConnStage.resolveEmpty =>
      Except.error (SshError.connectionFailed addr port "No addresses found")
  | ConnStage.tcpErr msg =>
      Except.error (SshError.connectionFailed addr port msg)
  | ConnStage.sessErr msg =>
      Except.error (SshError.operationFailed ("Failed to create session: " ++ msg))
  | ConnStage.handshakeErr msg =>
      Except.error (SshError.operationFailed ("Handshake failed: " ++ msg))
  | ConnStage.authErr =>
      Except.error (SshError.authenticationFailed "Invalid credentials")
  | ConnStage.notAuth =>
      Except.error (SshError.authenticationFailed "Authentication failed")
  | ConnStage.chanErr msg =>
      Except.error (SshError.channelError ("Create channel failed: " ++ msg))
  | ConnStage.ptyErr msg =>
      Except.error (SshError.channelError ("Failed to request PTY: " ++ msg))
  | ConnStage.shellErr msg =>
      Except.error (SshError.channelError ("Failed to start shell: " ++ msg))
  | ConnStage.ok => Except.ok ()

/-- Model of `SshManager::connect_ssh` at registry level (ssh.rs lines 210-358):
run the blocking establishment; on failure return the error with the
registry untouched; on success insert the session config and the channel
info (step 6 of the source is the only point that writes the maps). -/
def connect_ssh (m : SshManagerState) (id ip : String) (port : Nat)
    (username : String) (stage : ConnStage) :
    SshManagerState × Except SshError Unit :=
  match establishSsh ip port stage with
  | Except.error e => (m, Except.error e)
  | Except.ok _ =>
      ({ sessions := mapInsert m.sessions id ⟨ip, port, username⟩
       , channels := mapInsert m.channels id ⟨false, false, [], []⟩ }
      , Except.ok ())

/-- Model of `SshManager::disconnect_ssh` (ssh.rs lines 786-806): remove the entry
from both maps (signalling and aborting the tasks) and return ok
unconditionally. -/
def disconnect_ssh (m : SshManagerState) (id : String) :
    SshManagerState × Except SshError Unit :=
  ({ sessions := mapRemove m.sessions id, channels := mapRemove m.channels id }
  , Except.ok ())

/-- Model of `SshManager::send_ssh_input` (ssh.rs lines 749-763): look up the
channel entry; a missing id is `SessionNotFound`; a closed input channel
is `ChannelError`. -/
def send_ssh_input (m : SshManagerState) (id _input : String) :
    Except SshError Unit :=
  match mapLookup m.channels id with
  | some info =>
      if info.inputClosed then Except.error (SshError.channelError "Failed to send input")
      else Except.ok ()
  | none => Except.error (SshError.sessionNotFound id)

/-- Model of `SshManager::get_session_output` (ssh.rs lines 730-746): drain and
return the queue of the entry, or `SessionNotFound`. -/
def get_session_output (m : SshManagerState) (id : String) :
    SshManagerState × Except SshError (List OutputChunk) :=
  match mapLookup m.channels id with
  | some info =>
      ({ m with channels := mapInsert m.channels id { info with queue := [] } }
      , Except.ok info.queue)
  | none => (m, Except.error (SshError.sessionNotFound id))

/-- Model of `SshManager::get_buffered_ssh_output` (ssh.rs lines 768-783): clone
and return the replay cache of the entry, or `SessionNotFound`. -/
def get_buffered_ssh_output (m : SshManagerState) (id : String) :
    Except SshError (List OutputChunk) :=
  match mapLookup m.channels id with
  | some info => Except.ok info.replay
  | none => Except.error (SshError.sessionNotFound id)

/-- The dispatch part of `SshManager::upload_file_sftp` (ssh.rs lines
845-854): the command returns ok after spawning the worker iff the
session id is registered, else `SessionNotFound`. -/
def upload_file_sftp (m : SshManagerState) (id : String) : Except SshError Unit :=
  match mapLookup m.channels id with
  | some _ => Except.ok ()
  | none => Except.error (SshError.sessionNotFound id)

/-! ## Transport blocking-mode model (SFTP chunks and probe) -/

/-- The per-session transport as seen through the mutex: the ssh2 session
blocking flag. -/
structure Transport where
  blocking : Bool
deriving Repr, DecidableEq

/-- Which of the fallible operations inside one SFTP chunk succeed:
`sess.sftp()`, `sftp.open_mode`, the seek (non-first chunks only), the
`write_all` and the `flush` (ssh.rs lines 890-925). -/
structure SftpEnv where
  sftpOk : Bool
  openOk : Bool
  seekOk : Bool
  writeOk : Bool
  flushOk : Bool
deriving Repr, DecidableEq

/-- The inner closure of one SFTP chunk (ssh.rs lines 890-925), run while
blocking mode is on. -/
def sftpChunkBody (remotePath : String) (isFirst : Bool) (e : SftpEnv) :
    Except SshError Unit :=
  if !e.sftpOk then Except.error (SshError.operationFailed "Failed to start SFTP")
  else if !e.openOk then
    Except.error (SshError.operationFailed ("Failed to open remote file " ++ remotePath))
  else if !isFirst && !e.seekOk then
    Except.error (SshError.operationFailed "Failed to seek remote file")
  else if !e.writeOk then
    Except.error (SshError.operationFailed "Failed to write to remote file")
  else if !e.flushOk then
    Except.error (SshError.operationFailed "Failed to flush remote file")
  else Except.ok ()

/-- One SFTP chunk under the transport mutex (ssh.rs lines 884-929):
set blocking mode, run the chunk body, then restore non-blocking mode
unconditionally before the lock is dropped. -/
def uploadChunkLocked (t : Transport) (remotePath : String) (isFirst : Bool)
    (e : SftpEnv) : Transport × Except SshError Unit :=
  let t1 : Transport := { t with blocking := true }
  let res := sftpChunkBody remotePath isFirst e
  let t2 : Transport := { t1 with blocking := false }
  (t2, res)

/-- Which of the fallible operations inside `probe_remote_path` succeed,
and the raw `pwd` output read (ssh.rs lines 1017-1033). -/
structure ProbeEnv where
  chanOk : Bool
  execOk : Bool
  readOk : Bool
  output : String
deriving Repr, DecidableEq

/-- The inner closure of `probe_remote_path`, run while blocking mode is
on: open an exec channel, run `pwd`, read to EOF, trim. -/
def probeBody (e : ProbeEnv) : Except SshError String :=
  if !e.chanOk then
    Except.error (SshError.channelError "Failed to create probe channel")
  else if !e.execOk then Except.error (SshError.operationFailed "exec failed")
  else if !e.readOk then Except.error (SshError.operationFailed "read failed")
  else Except.ok e.output.trim

/-- Model of `probe_remote_path` under the transport mutex (ssh.rs lines
1013-1037): set blocking mode, run the body, restore non-blocking mode
unconditionally, return the result. -/
def probeLocked (t : Transport) (e : ProbeEnv) :
    Transport × Except SshError String :=
  let t1 : Transport := { t with blocking := true }
  let res := probeBody e
  ({ t1 with blocking := false }, res)

/-- Registry-level `probe_remote_path` (ssh.rs lines 1000-1040): a
missing id is `SessionNotFound`, otherwise the locked probe runs. -/
def probe_remote_path (m : SshManagerState) (id : String) (t : Transport)
    (e : ProbeEnv) : Except SshError String :=
  match mapLookup m.channels id with
  | some _ => (probeLocked t e).2
  | none => Except.error (SshError.sessionNotFound id)

/-! ## Local terminal registry (terminal.rs) -/

/-- Registry view of one `TerminalInfo` entry. -/
structure TermInfo where
  stopFlag : Bool
deriving Repr, DecidableEq

/-- The map owned by `TerminalManager` (terminal.rs lines 71-74) — a
struct of its own, disjoint from `SshManager`. -/
structure TermManagerState where
  channels : List (String × TermInfo)
deriving Repr, DecidableEq

/-- The whole backend state managed by Tauri: the SSH manager and the
terminal manager, two independent registries. -/
structure AppState where
  ssh : SshManagerState
  term : TermManagerState
deriving Repr, DecidableEq

/-- Model of `TerminalManager::connect_local` (terminal.rs lines 77-196): on
success insert an entry into the terminal registry; every path leaves the
SSH manager untouched (it is never even mentioned in terminal.rs). -/
def connect_local (a : AppState) (id : String) (spawnOk : Bool) :
    AppState × Except TerminalError Unit :=
  if spawnOk then
    ({ a with term := ⟨mapInsert a.term.channels id ⟨false⟩⟩ }, Except.ok ())
  else (a, Except.error (TerminalError.spawnFailed "Failed to open PTY"))

/-! ## SFTP upload worker event stream -/

/-- One `upload-progress` payload (struct `UploadProgress` in ssh.rs),
restricted to the fields the claims speak about; `progress` is the f64
percentage, represented exactly as a rational. -/
structure UploadProgressEv where
  progress : ℚ
  uploadedBytes : Nat
  totalBytes : Nat
  status : String
  errMsg : Option String
deriving Repr, DecidableEq

/-- The per-chunk `uploading` event (ssh.rs lines 943-953). -/
def uploadingEvent (written total : Nat) : UploadProgressEv :=
  { progress := if total > 0 then ((written : ℚ) / (total : ℚ)) * 100 else 0
  , uploadedBytes := written, totalBytes := total
  , status := "uploading", errMsg := none }

/-- The final `success` event (ssh.rs lines 965-978): reports
`progress = 100` and `uploaded_bytes = total_bytes`. -/
def successEvent (total : Nat) : UploadProgressEv :=
  { progress := 100, uploadedBytes := total, totalBytes := total
  , status := "success", errMsg := none }

/-- The final `error` event (ssh.rs lines 980-992): reports
`progress = 0`, `uploaded_bytes = 0` and `total_bytes = 0`. -/
def errorEvent (msg : String) : UploadProgressEv :=
  { progress := 0, uploadedBytes := 0, totalBytes := 0
  , status := "error", errMsg := some msg }

/-- Outcome of one trip around the upload loop: a local read delivering
`n` bytes whose remote chunk transfer succeeds or fails, or a local read
failure. -/
inductive UploadStep where
  | data (n : Nat) (chunkOk : Bool)
  | readFail
deriving Repr, DecidableEq

/-- The chunk loop of the upload worker (ssh.rs lines 874-958): a read of
0 bytes (or exhausting the oracle) ends the loop successfully; a
successful chunk advances `total_written` and emits an `uploading` event;
any failure aborts the loop with the error. -/
def uploadLoop (total : Nat) :
    List UploadStep → Nat → List UploadProgressEv × Except SshError Unit
  | [], _ => ([], Except.ok ())
  | UploadStep.readFail :: _, _ =>
      ([], Except.error (SshError.operationFailed "Read local file failed"))
  | UploadStep.data n chunkOk :: rest, written =>
      if n = 0 then ([], Except.ok ())
      else if chunkOk then
        let w := written + n
        let r := uploadLoop total rest w
        (uploadingEvent w total :: r.1, r.2)
      else ([], Except.error (SshError.operationFailed "Failed to write to remote file"))

/-- The full event stream of one upload worker (ssh.rs lines 858-994):
a failed local open emits only the error event; otherwise the loop events
followed by the final `success` or `error` event. -/
def uploadWorkerEvents (total : Nat) (openOk : Bool) (steps : List UploadStep) :
    List UploadProgressEv :=
  if !openOk then [errorEvent "Failed to open local file"]
  else
    match uploadLoop total steps 0 with
    | (evs, Except.ok _) => evs ++ [successEvent total]
    | (evs, Except.error _) => evs ++ [errorEvent "Upload failed"]

/-! ## Theorems -/

set_option maxRecDepth 100000


theorem range'_snoc (n : Nat) : List.range' 1 (n + 1) = List.range' 1 n ++ [n + 1] := by
  have h := @List.range'_concat 1 1 n
  simpa [Nat.add_comm] using h

theorem emitChunk_fields (t : IoState) (now : Nat) (b : Bool) :
    (emitChunk t now b).stopped = t.stopped
    ∧ (emitChunk t now b).stopFlag = t.stopFlag
    ∧ (emitChunk t now b).inInitial = t.inInitial
    ∧ (emitChunk t now b).written = t.written := by
  simp [emitChunk]

theorem ioInv_emitChunk (t : IoState) (now : Nat) (b : Bool)
    (hb : b = t.inInitial) (h : IoInv t) : IoInv (emitChunk t now b) := by
  obtain ⟨h1, h2, h3, h4⟩ := h
  refine ⟨?_, ?_, ?_, ?_⟩
  · simp [emitChunk, h1]
  · simp only [emitChunk, List.map_append, List.length_append, List.map_cons, List.map_nil,
      List.length_cons, List.length_nil]
    rw [h2, h1]
    simpa using (range'_snoc t.emitted.length).symm
  · cases hb' : t.inInitial with
    | true =>
        have hr := h4 hb'
        subst hb
        simp [emitChunk, hb', hr]
    | false =>
        subst hb
        simp only [emitChunk, hb', if_neg]
        simp only [Bool.false_eq_true, if_false]
        exact h3.trans (List.prefix_append _ _)
  · intro hi
    have hi' : t.inInitial = true := by simpa [emitChunk] using hi
    have hr := h4 hi'
    subst hb
    simp [emitChunk, hi', hr]



theorem ioInv_readPhase (t : IoState) (i : IoInput) (h : IoInv t) :
    IoInv (readPhase t i) := by
  unfold readPhase
  split
  · exact h
  · exact h

theorem ioInv_windowPhase (t : IoState) (i : IoInput) (h : IoInv t) :
    IoInv (windowPhase t i) := by
  have h1 : IoInv { t with inInitial := false } := by
    obtain ⟨a, b, c, d⟩ := h
    exact ⟨a, b, c, by intro hx; simp at hx⟩
  unfold windowPhase
  split
  · split
    · exact h1
    · exact ioInv_emitChunk { t with inInitial := false } i.now false rfl h1
  · exact h

theorem ioInv_batchPhase (t : IoState) (i : IoInput) (h : IoInv t) :
    IoInv (batchPhase t i) := by
  unfold batchPhase
  split
  · exact ioInv_emitChunk t i.now t.inInitial rfl h
  · exact h

theorem ioInv_inputPhase (t : IoState) (i : IoInput) (h : IoInv t) :
    IoInv (inputPhase t i) := h

theorem ioInv_ioStep (t : IoState) (i : IoInput) (h : IoInv t) :
    IoInv (ioStep t i) := by
  unfold ioStep
  split
  · exact h
  · split
    · exact h
    · split
      · exact h
      · exact h
      · exact ioInv_inputPhase _ i (ioInv_batchPhase _ i (ioInv_windowPhase _ i
          (ioInv_readPhase t i h)))



theorem readPhase_delta (t : IoState) (i : IoInput) :
    (readPhase t i).emitted = t.emitted ∧ (readPhase t i).queue = t.queue
    ∧ (readPhase t i).replay = t.replay := by
  unfold readPhase; split <;> simp

theorem windowPhase_delta (t : IoState) (i : IoInput) :
    ∃ d, (windowPhase t i).emitted = t.emitted ++ d
      ∧ (windowPhase t i).queue = t.queue ++ d
      ∧ (windowPhase t i).replay = t.replay := by
  unfold windowPhase
  split
  · split
    · exact ⟨[], by simp⟩
    · exact ⟨[⟨t.nextSeq, t.pending, i.now⟩], by simp [emitChunk]⟩
  · exact ⟨[], by simp⟩

theorem batchPhase_delta (t : IoState) (i : IoInput) :
    ∃ d d', (batchPhase t i).emitted = t.emitted ++ d
      ∧ (batchPhase t i).queue = t.queue ++ d
      ∧ (batchPhase t i).replay = t.replay ++ d' := by
  unfold batchPhase
  split
  · refine ⟨[⟨t.nextSeq, t.pending, i.now⟩],
      if t.inInitial then [⟨t.nextSeq, t.pending, i.now⟩] else [], ?_, ?_, ?_⟩
    · simp [emitChunk]
    · simp [emitChunk]
    · cases hi : t.inInitial <;> simp [emitChunk, hi]
  · exact ⟨[], [], by simp⟩

theorem inputPhase_delta (t : IoState) (i : IoInput) :
    (inputPhase t i).emitted = t.emitted ∧ (inputPhase t i).queue = t.queue
    ∧ (inputPhase t i).replay = t.replay := by
  simp [inputPhase]

theorem ioStep_delta (t : IoState) (i : IoInput) :
    ∃ d, (ioStep t i).emitted = t.emitted ++ d ∧ (ioStep t i).queue = t.queue ++ d := by
  unfold ioStep
  split
  · exact ⟨[], by simp⟩
  · split
    · exact ⟨[], by simp⟩
    · split
      · exact ⟨[], by simp⟩
      · exact ⟨[], by simp⟩
      · obtain ⟨h1, h2, h3⟩ := readPhase_delta t i
        obtain ⟨d2, g1, g2, g3⟩ := windowPhase_delta (readPhase t i) i
        obtain ⟨d3, d3', k1, k2, k3⟩ := batchPhase_delta (windowPhase (readPhase t i) i) i
        obtain ⟨m1, m2, m3⟩ := inputPhase_delta (batchPhase (windowPhase (readPhase t i) i) i) i
        refine ⟨d2 ++ d3, ?_, ?_⟩
        · rw [m1, k1, g1, h1, List.append_assoc]
        · rw [m2, k2, g2, h2, List.append_assoc]

theorem ioStep_replay_delta (t : IoState) (i : IoInput) :
    ∃ d, (ioStep t i).replay = t.replay ++ d := by
  unfold ioStep
  split
  · exact ⟨[], by simp⟩
  · split
    · exact ⟨[], by simp⟩
    · split
      · exact ⟨[], by simp⟩
      · exact ⟨[], by simp⟩
      · obtain ⟨h1, h2, h3⟩ := readPhase_delta t i
        obtain ⟨d2, g1, g2, g3⟩ := windowPhase_delta (readPhase t i) i
        obtain ⟨d3, d3', k1, k2, k3⟩ := batchPhase_delta (windowPhase (readPhase t i) i) i
        obtain ⟨m1, m2, m3⟩ := inputPhase_delta (batchPhase (windowPhase (readPhase t i) i) i) i
        exact ⟨d3', by rw [m3, k3, g3, h3]⟩

theorem emitChunk_inInitial (t : IoState) (now : Nat) (b : Bool) :
    (emitChunk t now b).inInitial = t.inInitial := rfl

/-- Once the initial window is over, every later pump iteration stays out
of the window and leaves the replay cache untouched. -/
theorem ioStep_frozen (t : IoState) (i : IoInput) (h : t.inInitial = false) :
    (ioStep t i).inInitial = false ∧ (ioStep t i).replay = t.replay := by
  unfold ioStep
  split
  · exact ⟨h, rfl⟩
  · split
    · exact ⟨h, rfl⟩
    · split
      · exact ⟨h, rfl⟩
      · exact ⟨h, rfl⟩
      · have hr : (readPhase t i).inInitial = t.inInitial ∧ (readPhase t i).replay = t.replay := by
          unfold readPhase; split <;> simp
        have hw : (windowPhase (readPhase t i) i).inInitial = false
            ∧ (windowPhase (readPhase t i) i).replay = (readPhase t i).replay := by
          unfold windowPhase
          simp [hr.1, h]
        have hb : (batchPhase (windowPhase (readPhase t i) i) i).inInitial = false
            ∧ (batchPhase (windowPhase (readPhase t i) i) i).replay
                = (windowPhase (readPhase t i) i).replay := by
          unfold batchPhase
          split
          · rw [emitChunk_inInitial, hw.1]
            refine ⟨rfl, ?_⟩
            simp [emitChunk, hw.1]
          · exact ⟨hw.1, rfl⟩
        refine ⟨?_, ?_⟩
        · show (inputPhase _ i).inInitial = false
          simpa [inputPhase] using hb.1
        · show (inputPhase _ i).replay = t.replay
          simp only [inputPhase]
          rw [hb.2, hw.2, hr.2]



theorem sessInv_step (s : SessState) (op : SessOp) (h : SessInv s) :
    SessInv (sessStep s op) := by
  obtain ⟨hio, hq⟩ := h
  cases op with
  | io i =>
      obtain ⟨d, he, hqu⟩ := ioStep_delta s.io i
      refine ⟨ioInv_ioStep s.io i hio, ?_⟩
      simp only [sessStep]
      rw [he, hqu, ← List.append_assoc, hq]
  | drain =>
      refine ⟨?_, ?_⟩
      · obtain ⟨a, b, c, d⟩ := hio
        exact ⟨a, b, c, d⟩
      · simp only [sessStep]
        rw [List.append_assoc]
        simpa using hq
  | getBuffered => exact ⟨hio, hq⟩
  | monitor fetchOk =>
      simp only [sessStep]
      split
      · exact ⟨hio, hq⟩
      · exact ⟨hio, hq⟩
  | uploadTick => exact ⟨hio, hq⟩
  | stop =>
      refine ⟨?_, ?_⟩
      · obtain ⟨a, b, c, d⟩ := hio
        exact ⟨a, b, c, d⟩
      · exact hq

theorem sessInv_runFrom (ops : List SessOp) (s : SessState) (h : SessInv s) :
    SessInv (runFrom s ops) := by
  induction ops generalizing s with
  | nil => exact h
  | cons op rest ih => exact ih (sessStep s op) (sessInv_step s op h)

theorem sessInv_init : SessInv initSessState := by
  refine ⟨⟨rfl, rfl, ?_, fun _ => rfl⟩, rfl⟩
  exact List.nil_prefix

theorem sessInv_runSess (ops : List SessOp) : SessInv (runSess ops) :=
  sessInv_runFrom ops initSessState sessInv_init

theorem replay_mono_step (s : SessState) (op : SessOp) :
    s.io.replay <+: (sessStep s op).io.replay := by
  cases op with
  | io i =>
      obtain ⟨d, hd⟩ := ioStep_replay_delta s.io i
      simp only [sessStep]
      rw [hd]
      exact List.prefix_append _ _
  | drain => exact List.prefix_refl _
  | getBuffered => exact List.prefix_refl _
  | monitor fetchOk =>
      simp only [sessStep]
      split
      · exact List.prefix_refl _
      · exact List.prefix_refl _
  | uploadTick => exact List.prefix_refl _
  | stop => exact List.prefix_refl _

theorem replay_mono_runFrom (ops : List SessOp) (s : SessState) :
    s.io.replay <+: (runFrom s ops).io.replay := by
  induction ops generalizing s with
  | nil => exact List.prefix_refl _
  | cons op rest ih =>
      exact (replay_mono_step s op).trans (ih (sessStep s op))

theorem frozen_step (s : SessState) (op : SessOp) (h : s.io.inInitial = false) :
    (sessStep s op).io.inInitial = false ∧ (sessStep s op).io.replay = s.io.replay := by
  cases op with
  | io i => exact ioStep_frozen s.io i h
  | drain => exact ⟨h, rfl⟩
  | getBuffered => exact ⟨h, rfl⟩
  | monitor fetchOk =>
      simp only [sessStep]
      split
      · exact ⟨h, rfl⟩
      · exact ⟨h, rfl⟩
  | uploadTick => exact ⟨h, rfl⟩
  | stop => exact ⟨h, rfl⟩

theorem frozen_runFrom (ops : List SessOp) (s : SessState) (h : s.io.inInitial = false) :
    (runFrom s ops).io.inInitial = false ∧ (runFrom s ops).io.replay = s.io.replay := by
  induction ops generalizing s with
  | nil => exact ⟨h, rfl⟩
  | cons op rest ih =>
      obtain ⟨h1, h2⟩ := frozen_step s op h
      obtain ⟨g1, g2⟩ := ih (sessStep s op) h1
      refine ⟨g1, ?_⟩
      show (runFrom (sessStep s op) rest).io.replay = s.io.replay
      rw [g2, h2]

/-- Claim C1: for every SSH session and every interleaved execution, the
sequence numbers of the chunks emitted by the I/O pump (delivered on both
the `ssh-output` event and the drainable output queue) are exactly
`1, 2, …, N` in emission order — strictly increasing, starting at 1, with
no gaps up to the last emitted sequence `N`. -/
theorem emitted_seq_exact (ops : List SessOp) :
    (runSess ops).io.emitted.map OutputChunk.seq
        = List.range' 1 (runSess ops).io.emitted.length
    ∧ List.Pairwise (fun a b => a < b) ((runSess ops).io.emitted.map OutputChunk.seq) := by
  have h := (sessInv_runSess ops).1.2.1
  refine ⟨h, ?_⟩
  rw [h]
  exact List.pairwise_lt_range' 1 _



/-- Claim C2: `get_buffered_ssh_output` returns exactly the chunks
emitted during the initial buffering window — the whole emission stream
while the window is open, frozen once it closes — and that list is a
prefix of the session's total emission stream; the call does not modify
the session, never removes chunks (earlier results are prefixes of later
ones), while `get_ssh_output` removes what it returns, so every chunk is
drained at most once (the drained chunks plus the current queue are
exactly the emission stream, with no duplicated sequence number). -/
theorem replay_prefix_and_drain_once (ops extra : List SessOp) :
    sessStep (runSess ops) SessOp.getBuffered = runSess ops
    ∧ getBufferedOutput (runSess ops) <+: (runSess ops).io.emitted
    ∧ ((runSess ops).io.inInitial = true →
        getBufferedOutput (runSess ops) = (runSess ops).io.emitted)
    ∧ ((runSess ops).io.inInitial = false →
        getBufferedOutput (runFrom (runSess ops) extra) = getBufferedOutput (runSess ops))
    ∧ getBufferedOutput (runSess ops) <+: getBufferedOutput (runFrom (runSess ops) extra)
    ∧ (runSess ops).drained ++ (runSess ops).io.queue = (runSess ops).io.emitted
    ∧ ((runSess ops).drained.map OutputChunk.seq).Nodup := by
  have hinv := sessInv_runSess ops
  obtain ⟨⟨h1, h2, h3, h4⟩, h5⟩ := hinv
  refine ⟨rfl, h3, h4, fun h => (frozen_runFrom extra _ h).2,
    replay_mono_runFrom extra _, h5, ?_⟩
  have hsub : List.Sublist ((runSess ops).drained.map OutputChunk.seq)
      ((runSess ops).io.emitted.map OutputChunk.seq) := by
    rw [← h5, List.map_append]
    exact List.sublist_append_left _ _
  refine List.Nodup.sublist hsub ?_
  rw [h2]
  exact List.nodup_range' 1 _

/-- Witness for claim C2 at concrete traces: one still inside the window
(where the replay equals the emission stream) and one past the window
expiry (where the replay is frozen under further steps). -/
theorem replay_prefix_and_drain_once_witness :
    ((runSess [SessOp.io cxInput1]).io.inInitial = true
      ∧ getBufferedOutput (runSess [SessOp.io cxInput1])
          = (runSess [SessOp.io cxInput1]).io.emitted)
    ∧ ((runSess [SessOp.io cxInput1, SessOp.io cxWindowExpire]).io.inInitial = false
      ∧ getBufferedOutput
            (runFrom (runSess [SessOp.io cxInput1, SessOp.io cxWindowExpire]) [SessOp.io cxInput2])
          = getBufferedOutput (runSess [SessOp.io cxInput1, SessOp.io cxWindowExpire])) := by
  refine ⟨⟨by decide, (replay_prefix_and_drain_once [SessOp.io cxInput1] []).2.2.1 (by decide)⟩,
    ⟨by decide,
      (replay_prefix_and_drain_once [SessOp.io cxInput1, SessOp.io cxWindowExpire]
        [SessOp.io cxInput2]).2.2.2.1 (by decide)⟩⟩

/-- Counterexample to claim C3 as stated: in the reachable state produced
by `cxInput1` (one 201-byte chunk already emitted, still inside the 2 s
window), a 300-byte pending buffer 5 ms after the last emission exceeds
the claimed in-window thresholds (200 bytes / 100 ms), yet the pump does
not emit — the code switched to the normal thresholds (1024 bytes / 20 ms)
at the first emission, not at window expiry. -/
theorem batch_regime_counterexample : ¬ batchClaim := by
  intro h
  have hc := h [SessOp.io cxInput1] cxInput2 (by decide) (by decide) (by decide) (by decide)
  exact absurd hc (by decide)

/-- Claim C3 amended: a chunk is batch-emitted exactly when pending bytes
exceed the size threshold or more than the time threshold elapsed since
the last emission, where the initial thresholds (200 bytes / 100 ms)
apply only before the window expires AND before the first emission, and
the normal thresholds (1024 bytes / 20 ms) apply after the first emission
or after the window expires. -/
theorem batch_regime_amended (t : IoState) (i : IoInput) :
    ((batchPhase t i).emitted.length = t.emitted.length + 1 ↔ amendedEmitCond t i = true)
    ∧ ((batchPhase t i).emitted.length = t.emitted.length ↔ amendedEmitCond t i = false) := by
  have hc : amendedEmitCond t i
      = (!t.pending.isEmpty
          && (decide (t.pending.length > (codeThresholds t.inInitial t.seenFirst).1)
              || decide (i.emitElapsed > (codeThresholds t.inInitial t.seenFirst).2))) := rfl
  rw [hc]
  unfold batchPhase
  split
  · rename_i hcond
    rw [hcond]
    constructor
    · simp [emitChunk]
    · simp [emitChunk]
  · rename_i hcond
    rw [Bool.not_eq_true] at hcond
    rw [hcond]
    constructor
    · simp
    · simp



/-- Counterexample to claim C7 as stated: a single monitoring-task tick
whose status fetch succeeds emits an `ssh-status` event before the pump
has emitted any output chunk — nothing in the code orders the first chunk
before status or upload-progress events. -/
theorem first_emission_order_counterexample :
    ¬ firstEmissionClaim ∧ (runSess [SessOp.monitor true]).events = [Ev.status] := by
  constructor
  · intro h
    exact absurd (h [SessOp.monitor true]) (by decide)
  · decide

/-- Claim C7 amended: no ordering is guaranteed between the first output
chunk and `ssh-status` / `upload-progress` events — there are executions
where a status (or upload-progress) event precedes any output chunk, and
executions where the first chunk precedes all status events. -/
theorem first_emission_order_amended :
    (∃ ops : List SessOp, Ev.status ∈ (runSess ops).events
      ∧ chunkFirstHolds (runSess ops).events = false)
    ∧ (∃ ops : List SessOp, Ev.uploadProgress ∈ (runSess ops).events
      ∧ chunkFirstHolds (runSess ops).events = false)
    ∧ (∃ ops : List SessOp, Ev.status ∈ (runSess ops).events
      ∧ (∃ n, Ev.chunk n ∈ (runSess ops).events)
      ∧ chunkFirstHolds (runSess ops).events = true) := by
  refine ⟨⟨[SessOp.monitor true], by decide, by decide⟩,
    ⟨[SessOp.uploadTick], by decide, by decide⟩,
    ⟨[SessOp.io cxInput1, SessOp.monitor true], by decide, ⟨1, by decide⟩, by decide⟩⟩

theorem ioStep_inputs_invisible (t : IoState) (i : IoInput) (x : String) :
    ioStep t { i with inputs := [(x, false)] } = ioStep t { i with inputs := [] } := by
  cases i with
  | mk rr we ee nw ins => rfl

theorem readPhase_flags (t : IoState) (i : IoInput) :
    (readPhase t i).stopFlag = t.stopFlag ∧ (readPhase t i).stopped = t.stopped := by
  unfold readPhase; split <;> simp

theorem windowPhase_flags (t : IoState) (i : IoInput) :
    (windowPhase t i).stopFlag = t.stopFlag ∧ (windowPhase t i).stopped = t.stopped := by
  unfold windowPhase
  split
  · split
    · simp
    · simp [emitChunk]
  · simp

theorem batchPhase_flags (t : IoState) (i : IoInput) :
    (batchPhase t i).stopFlag = t.stopFlag ∧ (batchPhase t i).stopped = t.stopped := by
  unfold batchPhase
  split
  · simp [emitChunk]
  · simp

/-- Counterexample to claim C8 as stated (the "records the failure in the
error queue" part): the session state after a live pump iteration whose
single queued input item fails to write equals the state after the same
iteration with no queued input at all, so no component of the session
state records the failure — the source discards the write result
(`let _ = ch.write_all(..).and_then(|_| ch.flush())`) and no error queue
exists. -/
theorem input_error_recording_counterexample :
    ¬ inputErrorClaim ∧ ioStep initIoState cxFailInput = ioStep initIoState cxNoInput := by
  refine ⟨fun h => ?_, by decide⟩
  have h2 := h initIoState cxNoInput "ls\n" rfl rfl (by decide) (by decide)
  exact h2 (ioStep_inputs_invisible initIoState cxNoInput "ls\n")

/-- Claim C8 amended: when a write or flush of a queued input item fails,
the I/O pump discards the failure and continues its loop; an input write
or flush error never sets the stop flag and never terminates the
session. -/
theorem input_error_ignored (t : IoState) (i : IoInput) (x : String)
    (h1 : t.stopped = false) (h2 : t.stopFlag = false)
    (h3 : i.readResult ≠ ReadRes.closed) (h4 : i.readResult ≠ ReadRes.readErr) :
    ioStep t { i with inputs := [(x, false)] } = ioStep t { i with inputs := [] }
    ∧ (ioStep t i).stopFlag = false ∧ (ioStep t i).stopped = false := by
  refine ⟨ioStep_inputs_invisible t i x, ?_⟩
  unfold ioStep
  rw [h1, h2]
  simp only [Bool.false_eq_true, if_false]
  cases hr : i.readResult with
  | closed => exact absurd hr h3
  | readErr => exact absurd hr h4
  | data d =>
      have ha := readPhase_flags t i
      have hb := windowPhase_flags (readPhase t i) i
      have hc := batchPhase_flags (windowPhase (readPhase t i) i) i
      constructor
      · show (inputPhase _ i).stopFlag = false
        simp only [inputPhase]
        rw [hc.1, hb.1, ha.1, h2]
      · show (inputPhase _ i).stopped = false
        simp only [inputPhase]
        rw [hc.2, hb.2, ha.2, h1]
  | wouldBlock =>
      have ha := readPhase_flags t i
      have hb := windowPhase_flags (readPhase t i) i
      have hc := batchPhase_flags (windowPhase (readPhase t i) i) i
      constructor
      · show (inputPhase _ i).stopFlag = false
        simp only [inputPhase]
        rw [hc.1, hb.1, ha.1, h2]
      · show (inputPhase _ i).stopped = false
        simp only [inputPhase]
        rw [hc.2, hb.2, ha.2, h1]

/-- Witness for the amended claim C8 at a concrete live state and a
concrete failing input item. -/
theorem input_error_ignored_witness :
    ioStep initIoState { cxNoInput with inputs := [("ls\n", false)] }
        = ioStep initIoState { cxNoInput with inputs := [] }
    ∧ (ioStep initIoState cxNoInput).stopFlag = false
    ∧ (ioStep initIoState cxNoInput).stopped = false :=
  input_error_ignored initIoState cxNoInput "ls\n" rfl rfl (by decide) (by decide)



/-- Claim C4: every holder that switches the transport's blocking mode to
true restores it to false before releasing the transport mutex, on every
exit path including error paths — after any SFTP upload chunk (whatever
combination of its sftp/open/seek/write/flush operations fails) and after
any `probe_remote_path` call, the transport's blocking flag is false. -/
theorem blocking_flag_restored (t : Transport) (remotePath : String)
    (isFirst : Bool) (e : SftpEnv) (pe : ProbeEnv) :
    (uploadChunkLocked t remotePath isFirst e).1.blocking = false
    ∧ (probeLocked t pe).1.blocking = false :=
  ⟨rfl, rfl⟩

/-- Claim C5: if `connect_ssh` fails during connection establishment (at
address resolution, TCP connect, session creation, handshake,
authentication rejection, the post-auth authenticated check, channel
open, PTY request, or shell start) it returns the typed error produced at
that stage — `ConnectionFailed` for resolution/TCP, `AuthenticationFailed`
for both auth stages, `ChannelError` for channel/PTY/shell,
`OperationFailed` for session creation and handshake — and the registry
is left unchanged, so `has_session` is unaffected (false for a fresh
id). -/
theorem connect_failure_no_session (m : SshManagerState) (id ip username : String)
    (port : Nat) (stage : ConnStage) (h : stage ≠ ConnStage.ok) :
    ∃ e : SshError,
      connect_ssh m id ip port username stage = (m, Except.error e)
      ∧ (stage = ConnStage.authErr → e = SshError.authenticationFailed "Invalid credentials")
      ∧ (stage = ConnStage.notAuth → e = SshError.authenticationFailed "Authentication failed")
      ∧ (∀ msg, stage = ConnStage.resolveErr msg →
          e = SshError.connectionFailed (ip ++ ":" ++ toString port) port
                ("Failed to resolve address: " ++ msg))
      ∧ (stage = ConnStage.resolveEmpty →
          e = SshError.connectionFailed (ip ++ ":" ++ toString port) port "No addresses found")
      ∧ (∀ msg, stage = ConnStage.tcpErr msg →
          e = SshError.connectionFailed (ip ++ ":" ++ toString port) port msg)
      ∧ (∀ msg, stage = ConnStage.sessErr msg →
          e = SshError.operationFailed ("Failed to create session: " ++ msg))
      ∧ (∀ msg, stage = ConnStage.handshakeErr msg →
          e = SshError.operationFailed ("Handshake failed: " ++ msg))
      ∧ (∀ msg, stage = ConnStage.chanErr msg →
          e = SshError.channelError ("Create channel failed: " ++ msg))
      ∧ (∀ msg, stage = ConnStage.ptyErr msg →
          e = SshError.channelError ("Failed to request PTY: " ++ msg))
      ∧ (∀ msg, stage = ConnStage.shellErr msg →
          e = SshError.channelError ("Failed to start shell: " ++ msg))
      ∧ has_session (connect_ssh m id ip port username stage).1 id = has_session m id := by
  cases stage <;> simp [connect_ssh, establishSsh] at h ⊢

/-- Witness for claim C5: a rejected password yields
`AuthenticationFailed` and an empty registry stays empty. -/
theorem connect_failure_no_session_witness :
    ∃ e : SshError,
      connect_ssh emptySshManager "s1" "10.0.0.1" 22 "root" ConnStage.authErr
          = (emptySshManager, Except.error e)
      ∧ (ConnStage.authErr = ConnStage.authErr →
          e = SshError.authenticationFailed "Invalid credentials")
      ∧ has_session (connect_ssh emptySshManager "s1" "10.0.0.1" 22 "root" ConnStage.authErr).1 "s1"
          = has_session emptySshManager "s1" := by
  obtain ⟨e, h1, h2, _, _, _, _, _, _, _, _, _, h12⟩ :=
    connect_failure_no_session emptySshManager "s1" "10.0.0.1" "root" 22
      ConnStage.authErr (by decide)
  exact ⟨e, h1, h2, h12⟩

theorem lookup_remove_none {β : Type} (m : List (String × β)) (k : String) :
    mapLookup (mapRemove m k) k = none := by
  induction m with
  | nil => rfl
  | cons p rest ih =>
      by_cases h : p.1 = k
      · simpa [mapRemove, mapLookup, List.filter, h] using ih
      · have hne : (p.1 == k) = false := by simp [h]
        have hne' : (k == p.1) = false := by
          simp [BEq.comm]
          exact fun e => h e.symm
        simp only [mapRemove, List.filter, hne, Bool.not_false] at *
        simp only [mapLookup, List.lookup] at *
        cases p with
        | mk a b =>
            simp only at hne'
            rw [hne']
            exact ih

/-- Claim C6: `disconnect_ssh` is idempotent — for any session id
(including one never connected) calling it twice returns ok both times,
and after a disconnect any subsequent `send_ssh_input` with that id
returns `SessionNotFound`. -/
theorem disconnect_idempotent (m : SshManagerState) (id input : String) :
    (disconnect_ssh m id).2 = Except.ok ()
    ∧ (disconnect_ssh (disconnect_ssh m id).1 id).2 = Except.ok ()
    ∧ send_ssh_input (disconnect_ssh m id).1 id input
        = Except.error (SshError.sessionNotFound id)
    ∧ send_ssh_input (disconnect_ssh (disconnect_ssh m id).1 id).1 id input
        = Except.error (SshError.sessionNotFound id)
    ∧ has_session (disconnect_ssh m id).1 id = false := by
  refine ⟨rfl, rfl, ?_, ?_, ?_⟩
  · unfold send_ssh_input
    rw [show mapLookup (disconnect_ssh m id).1.channels id = none from
      lookup_remove_none m.channels id]
  · unfold send_ssh_input
    rw [show mapLookup (disconnect_ssh (disconnect_ssh m id).1 id).1.channels id = none from
      lookup_remove_none _ id]
  · unfold has_session
    rw [show mapLookup (disconnect_ssh m id).1.sessions id = none from
      lookup_remove_none m.sessions id]
    rfl

/-- Claim C9: local and remote sessions live in disjoint registries — for
a session created via `connect_local` (whose id is not separately
connected over SSH), the SSH-side operations `send_ssh_input`,
`get_ssh_output`, `get_buffered_ssh_output`, `upload_file_sftp` and
`probe_remote_path` all return `SessionNotFound`, and `has_session`
returns false. -/
theorem local_sessions_invisible_to_ssh (a : AppState) (id input : String)
    (spawnOk : Bool) (t : Transport) (e : ProbeEnv)
    (h1 : mapLookup a.ssh.channels id = none)
    (h2 : mapLookup a.ssh.sessions id = none) :
    (connect_local a id spawnOk).1.ssh = a.ssh
    ∧ send_ssh_input (connect_local a id spawnOk).1.ssh id input
        = Except.error (SshError.sessionNotFound id)
    ∧ (get_session_output (connect_local a id spawnOk).1.ssh id).2
        = Except.error (SshError.sessionNotFound id)
    ∧ get_buffered_ssh_output (connect_local a id spawnOk).1.ssh id
        = Except.error (SshError.sessionNotFound id)
    ∧ upload_file_sftp (connect_local a id spawnOk).1.ssh id
        = Except.error (SshError.sessionNotFound id)
    ∧ probe_remote_path (connect_local a id spawnOk).1.ssh id t e
        = Except.error (SshError.sessionNotFound id)
    ∧ has_session (connect_local a id spawnOk).1.ssh id = false := by
  have hssh : (connect_local a id spawnOk).1.ssh = a.ssh := by
    unfold connect_local
    split <;> rfl
  rw [hssh]
  refine ⟨rfl, ?_, ?_, ?_, ?_, ?_, ?_⟩
  · unfold send_ssh_input; rw [h1]
  · unfold get_session_output; rw [h1]
  · unfold get_buffered_ssh_output; rw [h1]
  · unfold upload_file_sftp; rw [h1]
  · unfold probe_remote_path; rw [h1]
  · unfold has_session; rw [h2]; rfl

/-- Witness for claim C9: a fresh backend state with one local session. -/
theorem local_sessions_invisible_to_ssh_witness :
    (connect_local ⟨emptySshManager, ⟨[]⟩⟩ "loc1" true).1.ssh = emptySshManager
    ∧ send_ssh_input (connect_local ⟨emptySshManager, ⟨[]⟩⟩ "loc1" true).1.ssh "loc1" "ls"
        = Except.error (SshError.sessionNotFound "loc1")
    ∧ has_session (connect_local ⟨emptySshManager, ⟨[]⟩⟩ "loc1" true).1.ssh "loc1" = false := by
  obtain ⟨g1, g2, _, _, _, _, g7⟩ :=
    local_sessions_invisible_to_ssh ⟨emptySshManager, ⟨[]⟩⟩ "loc1" "ls" true
      ⟨false⟩ ⟨true, true, true, "/root"⟩ rfl rfl
  exact ⟨g1, g2, g7⟩

/-- Claim C10: when an SFTP upload fails after one or more chunks have
been transferred, the final `upload-progress` event with status `error`
reports `progress = 0`, `uploaded_bytes = 0` and `total_bytes = 0`,
discarding the byte counts reached before the failure (the preceding
`uploading` event had reported the actual transferred bytes). -/
theorem upload_error_discards_progress (total n k : Nat) (rest : List UploadStep)
    (hn : n ≠ 0) (hk : k ≠ 0) :
    uploadWorkerEvents total true (UploadStep.data n true :: UploadStep.data k false :: rest)
        = [uploadingEvent n total, errorEvent "Upload failed"]
    ∧ (uploadingEvent n total).uploadedBytes = n
    ∧ (errorEvent "Upload failed").progress = 0
    ∧ (errorEvent "Upload failed").uploadedBytes = 0
    ∧ (errorEvent "Upload failed").totalBytes = 0
    ∧ (errorEvent "Upload failed").status = "error" := by
  refine ⟨?_, rfl, rfl, rfl, rfl, rfl⟩
  have h2 : uploadLoop total (UploadStep.data k false :: rest) n
      = ([], Except.error (SshError.operationFailed "Failed to write to remote file")) := by
    unfold uploadLoop
    simp [hk]
  have h1 : uploadLoop total (UploadStep.data n true :: UploadStep.data k false :: rest) 0
      = ([uploadingEvent n total],
          Except.error (SshError.operationFailed "Failed to write to remote file")) := by
    unfold uploadLoop
    simp [hn, h2]
  unfold uploadWorkerEvents
  rw [h1]
  simp

/-- Witness for claim C10: a 1000-byte upload failing on its second
chunk after 512 bytes were transferred. -/
theorem upload_error_discards_progress_witness :
    uploadWorkerEvents 1000 true [UploadStep.data 512 true, UploadStep.data 488 false]
        = [uploadingEvent 512 1000, errorEvent "Upload failed"]
    ∧ (uploadingEvent 512 1000).uploadedBytes = 512
    ∧ (errorEvent "Upload failed").progress = 0
    ∧ (errorEvent "Upload failed").uploadedBytes = 0
    ∧ (errorEvent "Upload failed").totalBytes = 0 := by
  obtain ⟨g1, g2, g3, g4, g5, _⟩ :=
    upload_error_discards_progress 1000 512 488 [] (by decide) (by decide)
  exact ⟨g1, g2, g3, g4, g5⟩


end NexaShell
